import Mathlib

/-!
Verification of the integrity-verified model loading and prediction service
of this repository (the files app/model.py and app/security.py).

The Python code is shallowly embedded:

* JSON/Python values held in the metadata document are the inductive type
  PyVal; Python truthiness is pyTruthy, Python value equality (the == used
  on dict keys) is PyVal.beq.
* The mutable fields of the IrisModel instance (self.model, self.metadata,
  self.classes) form the structure IrisModel; the state right after the
  constructor ran is IrisModel.init.
* File system input to a load() call is the structure FS: the artifact bytes
  (or absence of the file) and the metadata file (absent, unparseable, or a
  parsed PyVal document).
* hashlib is abstracted as a parameter hashHex, mapping an algorithm name
  and a byte stream to a hex digest string.  security.calculate_file_hash
  reads the file in 4096-byte chunks and feeds every chunk to the hash
  object in order, which yields the digest of the whole byte stream; the
  embedding therefore applies hashHex to the full file content.
* joblib.load is abstracted as a parameter deser mapping bytes to an
  optional deserialized classifier (none models a deserialization failure).
* load and predict additionally return an event trace recording the
  observable side steps (digest computation with the algorithm used,
  deserialization of the artifact, invocation of the classifier), so that
  ordering and never-attempted properties are statable.
-/

namespace IrisSpec

/-- Python/JSON values as produced by json.load and stored in the metadata
document.  JSON numbers (int and float alike) are represented as rationals. -/
inductive PyVal where
  | str (s : String)
  | num (q : ℚ)
  | bool (b : Bool)
  | null
  | list (xs : List PyVal)
  | dict (entries : List (String × PyVal))

mutual

/-- Python value equality (the == operator), used on dict keys. -/
def PyVal.beq : PyVal → PyVal → Bool
  | .str a, .str b => a == b
  | .num a, .num b => decide (a = b)
  | .bool a, .bool b => a == b
  | .null, .null => true
  | .list xs, .list ys => PyVal.beqList xs ys
  | .dict es, .dict fs => PyVal.beqDict es fs
  | _, _ => false

/-- Elementwise equality of Python lists. -/
def PyVal.beqList : List PyVal → List PyVal → Bool
  | [], [] => true
  | x :: xs, y :: ys => PyVal.beq x y && PyVal.beqList xs ys
  | _, _ => false

/-- Elementwise equality of dict entry lists. -/
def PyVal.beqDict : List (String × PyVal) → List (String × PyVal) → Bool
  | [], [] => true
  | e :: es, f :: fs => (e.1 == f.1 && PyVal.beq e.2 f.2) && PyVal.beqDict es fs
  | _, _ => false

end

/-- Python truthiness of a value, as used by the line if expected_hash: in
IrisModel.load. -/
def pyTruthy : PyVal → Bool
  | .str s => decide (s ≠ "")
  | .num q => decide (q ≠ 0)
  | .bool b => b
  | .null => false
  | .list xs => !xs.isEmpty
  | .dict es => !es.isEmpty

/-- Truthiness of the result of dict.get: Python's None (key absent) is
falsy. -/
def pyTruthyOpt : Option PyVal → Bool
  | none => false
  | some v => pyTruthy v

/-- Lookup in a Python dict built from parsed JSON object entries (string
keys); a later binding of the same key overwrites an earlier one, as in a
Python dict. -/
def dictGet (es : List (String × PyVal)) (k : String) : Option PyVal :=
  es.foldl (fun acc p => if p.1 = k then some p.2 else acc) none

/-- The deserialized classifier, abstracting the object joblib.load returns.
predictIdx is the class index model.predict(X)[0] and predictProba the
probability vector model.predict_proba(X)[0] for the single input row X.
Probabilities are represented as rationals. -/
structure Classifier where
  predictIdx : List ℚ → Nat
  predictProba : List ℚ → List ℚ

/-- hashlib abstraction: algorithm name and byte stream to hex digest. -/
abbrev HashFn := String → List Nat → String

/-- joblib.load abstraction: artifact bytes to an optional classifier;
none models a deserialization failure. -/
abbrev DeserFn := List Nat → Option Classifier

/-- Observable side steps of a load() call. -/
inductive LoadEvent where
  | digest (algorithm : String)
  | deserialize
deriving DecidableEq

/-- Observable side steps of a predict() call. -/
inductive PredictEvent where
  | invoke
deriving DecidableEq

/-- The Python exceptions the embedded operations can raise.  Message
payloads keep exactly the data the source interpolates into the message
(for ModelIntegrityError the expected and the actual digest; for the
predict arity ValueError the expected and the actual feature count). -/
inductive PyErr where
  | fileNotFound (which : String)
  | jsonDecodeError
  | attributeError (attr : String)
  | modelIntegrityError (expected actual : String)
  | typeError (note : String)
  | deserializationError
  | keyError (key : String)
  | runtimeError (msg : String)
  | valueError (expected actual : Nat)
  | indexError
deriving DecidableEq

/-- The mutable state of the IrisModel instance: the fields self.model,
self.metadata and self.classes of app/model.py.  The two path fields are
fixed at construction and never read except to open the files, so the file
contents are instead supplied per load() call through FS. -/
structure IrisModel where
  model : Option Classifier
  metadata : Option PyVal
  classes : Option PyVal

/-- State established by IrisModel.__init__ : all three fields are None. -/
def IrisModel.init : IrisModel := ⟨none, none, none⟩

/-- Contents of the file system as seen by one load() call.
modelFile: none when self.model_path does not exist, otherwise the
artifact's bytes.  metadataFile: none when self.metadata_path does not
exist; some none when the file exists but json.load raises; some (some md)
when it parses to the document md. -/
structure FS where
  modelFile : Option (List Nat)
  metadataFile : Option (Option PyVal)

/-- Result of a load() call: the raised exception or unit, the state of the
IrisModel instance after the call (Python leaves all mutations in place when
an exception propagates), and the event trace. -/
structure LoadOut where
  res : Except PyErr Unit
  st : IrisModel
  ev : List LoadEvent

/-- Embedding of security.calculate_file_hash.  The source signature is
calculate_file_hash(filepath, algorithm="sha256"); the default argument is
kept.  It returns the hex digest of the file's full byte stream (the
4096-byte chunk loop feeds exactly that stream to hashlib) paired with the
event recording which algorithm was used. -/
def calculate_file_hash (hashHex : HashFn) (contents : List Nat)
    (algorithm : String := "sha256") : String × LoadEvent :=
  (hashHex algorithm contents, LoadEvent.digest algorithm)

/-- The tail of IrisModel.load after the integrity branch: deserialize the
artifact (self.model = joblib.load(self.model_path)) and then read the
classes entry (self.classes = self.metadata["classes"], a KeyError when
absent).  s1 already holds the parsed metadata. -/
def loadTail (deser : DeserFn) (bytes : List Nat)
    (es : List (String × PyVal)) (s1 : IrisModel) (ev : List LoadEvent) :
    LoadOut :=
  match deser bytes with
  | none => ⟨.error .deserializationError, s1, ev ++ [.deserialize]⟩
  | some clf =>
    let s2 : IrisModel := { s1 with model := some clf }
    match dictGet es "classes" with
    | none => ⟨.error (.keyError "classes"), s2, ev ++ [.deserialize]⟩
    | some cs => ⟨.ok (), { s2 with classes := some cs }, ev ++ [.deserialize]⟩

/-- Whether every character of the string is ASCII (code point below 128). -/
def asciiString (s : String) : Bool :=
  s.toList.all (fun c => c.toNat < 128)

/-- Embedding of hmac.compare_digest restricted to its value behaviour on
two str arguments: CPython raises TypeError when either string contains a
non-ASCII character, and otherwise returns whether the two strings are
equal (its constant-time execution is a timing property with no
value-level content). -/
def compare_digest (a b : String) : Except PyErr Bool :=
  if asciiString a && asciiString b then .ok (decide (a = b))
  else .error (.typeError "compare_digest")

/-- The integrity branch of IrisModel.load (app/model.py lines 54-65),
applied to self.metadata.get("model_hash"): when that value is truthy,
compute the artifact digest with calculate_file_hash (called with its
default algorithm, exactly as in the source) and compare with
hmac.compare_digest — a ModelIntegrityError carrying expected and actual
digest on mismatch, a TypeError from compare_digest when the truthy
declared hash is a non-ASCII string, and a TypeError when it is truthy but
not a string; when the value is falsy (absent key, None, empty string,
...), fall through to deserialization with no digest computed. -/
def loadHashBranch (hashHex : HashFn) (deser : DeserFn) (bytes : List Nat)
    (es : List (String × PyVal)) (s1 : IrisModel) :
    Option PyVal → LoadOut
  | some (.str e) =>
    if pyTruthy (.str e) then
      let ha := calculate_file_hash hashHex bytes
      match compare_digest e ha.1 with
      | .error err => ⟨.error err, s1, [ha.2]⟩
      | .ok true => loadTail deser bytes es s1 [ha.2]
      | .ok false => ⟨.error (.modelIntegrityError e ha.1), s1, [ha.2]⟩
    else loadTail deser bytes es s1 []
  | some v =>
    if pyTruthy v then
      ⟨.error (.typeError "compare_digest"), s1,
        [(calculate_file_hash hashHex bytes).2]⟩
    else loadTail deser bytes es s1 []
  | none => loadTail deser bytes es s1 []

/-- Embedding of IrisModel.load (app/model.py lines 42-75).

Steps, in the source's order: existence checks on both paths
(FileNotFoundError); json.load into self.metadata (the assignment happens
before any validation, so it persists even when the call later fails);
self.metadata.get("model_hash") (an AttributeError when the document is not
a dict); the integrity branch loadHashBranch; joblib.load; finally
self.classes = self.metadata["classes"].  No metadata schema validation of
any kind is performed. -/
def load (hashHex : HashFn) (deser : DeserFn) (fs : FS) (s : IrisModel) :
    LoadOut :=
  match fs.modelFile with
  | none => ⟨.error (.fileNotFound "model"), s, []⟩
  | some bytes =>
    match fs.metadataFile with
    | none => ⟨.error (.fileNotFound "metadata"), s, []⟩
    | some parsed =>
      match parsed with
      | none => ⟨.error .jsonDecodeError, s, []⟩
      | some md =>
        let s1 : IrisModel := { s with metadata := some md }
        match md with
        | .dict es =>
          loadHashBranch hashHex deser bytes es s1 (dictGet es "model_hash")
        | _ => ⟨.error (.attributeError "get"), s1, []⟩

/-- Insertion into a Python dict: overwrite the value when an equal key is
present, else append the new binding. -/
def dictInsert (d : List (PyVal × ℚ)) (k : PyVal) (v : ℚ) :
    List (PyVal × ℚ) :=
  if d.any (fun p => PyVal.beq p.1 k) then
    d.map (fun p => if PyVal.beq p.1 k then (p.1, v) else p)
  else d ++ [(k, v)]

/-- The dict comprehension of predict: build a Python dict from the
(class name, probability) pairs in order. -/
def pyDictOf (pairs : List (PyVal × ℚ)) : List (PyVal × ℚ) :=
  pairs.foldl (fun d p => dictInsert d p.1 p.2) []

/-- Result of a predict() call: the raised exception or the returned triple
(predicted class, confidence, probabilities dict), and the event trace. -/
structure PredictOut where
  res : Except PyErr (PyVal × ℚ × List (PyVal × ℚ))
  ev : List PredictEvent

/-- Embedding of IrisModel.predict (app/model.py lines 77-115).

Steps, in the source's order: the self.model None check and the
self.classes None check (RuntimeError with the source's messages); the
hard-coded arity check len(features) != 4 (ValueError naming expected and
actual counts) before the classifier is touched; then the classifier is
invoked for the prediction index and the probability vector; then
self.classes[prediction] (IndexError when the index is out of range) and
probabilities[prediction]; finally the dict comprehension zipping
self.classes with the probabilities.  self.classes holds whatever the
metadata's classes entry was; every run the claims exercise has a list
there, and a non-list value is mapped to a TypeError. -/
def predict (s : IrisModel) (features : List ℚ) : PredictOut :=
  match s.model with
  | none => ⟨.error (.runtimeError "Model not loaded. Call load() first."), []⟩
  | some clf =>
    match s.classes with
    | none =>
      ⟨.error (.runtimeError "Model classes not loaded. Call load() first."),
        []⟩
    | some cs =>
      if features.length ≠ 4 then
        ⟨.error (.valueError 4 features.length), []⟩
      else
        let prediction := clf.predictIdx features
        let probabilities := clf.predictProba features
        match cs with
        | .list csl =>
          match csl.get? prediction with
          | none => ⟨.error .indexError, [.invoke]⟩
          | some predictedClass =>
            match probabilities.get? prediction with
            | none => ⟨.error .indexError, [.invoke]⟩
            | some confidence =>
              ⟨.ok (predictedClass, confidence,
                  pyDictOf (csl.zip probabilities)), [.invoke]⟩
        | _ => ⟨.error (.typeError "subscript"), [.invoke]⟩

/-- Embedding of IrisModel.get_info (app/model.py lines 117-127): a
RuntimeError when self.metadata is None, else the metadata document. -/
def get_info (s : IrisModel) : Except PyErr PyVal :=
  match s.metadata with
  | none => .error (.runtimeError "Model not loaded. Call load() first.")
  | some md => .ok md

/-- Embedding of IrisModel.is_loaded (app/model.py lines 129-131):
self.model is not None and self.metadata is not None. -/
def is_loaded (s : IrisModel) : Bool :=
  s.model.isSome && s.metadata.isSome

/-! Concrete instantiations of the abstract hash function and deserializer,
used to evaluate the embedded operations on concrete inputs.  toyHash is
injective enough for the scenarios at hand and, crucially, gives different
digests for different algorithm names, like real hashlib. -/

/-- A concrete stand-in for hashlib: digest string determined by the
algorithm name and the byte stream. -/
def toyHash : HashFn := fun alg bytes =>
  alg ++ "-" ++ toString (bytes.foldl (fun a b => a * 31 + b) 7)

/-- A concrete classifier: always class index 0 with probability vector
[1, 0, 0]. -/
def toyClassifier : Classifier := ⟨fun _ => 0, fun _ => [1, 0, 0]⟩

/-- A concrete deserializer that always succeeds. -/
def toyDeser : DeserFn := fun _ => some toyClassifier

/-! Helper lemmas about the embedded operations. -/

/-- The event trace of loadTail always ends (and the deserialization step
always happens) once control reaches it. -/
theorem loadTail_ev (deser : DeserFn) (bytes : List Nat)
    (es : List (String × PyVal)) (s1 : IrisModel) (ev : List LoadEvent) :
    (loadTail deser bytes es s1 ev).ev = ev ++ [LoadEvent.deserialize] := by
  unfold loadTail
  cases hd : deser bytes with
  | none => rfl
  | some clf =>
    cases hc : dictGet es "classes" with
    | none => rfl
    | some cs => rfl

/-- When loadTail raises, the classes field is left as it was. -/
theorem loadTail_error_classes (deser : DeserFn) (bytes : List Nat)
    (es : List (String × PyVal)) (s1 : IrisModel) (ev : List LoadEvent)
    (e : PyErr) (h : (loadTail deser bytes es s1 ev).res = .error e) :
    (loadTail deser bytes es s1 ev).st.classes = s1.classes := by
  unfold loadTail at h ⊢
  cases hd : deser bytes with
  | none => rfl
  | some clf =>
    rw [hd] at h
    cases hc : dictGet es "classes" with
    | none => rfl
    | some cs => rw [hc] at h; exact absurd h (by simp)

/-- Reduction of load on an existing artifact and a metadata file parsing
to a dict: existence checks pass, self.metadata is assigned, and control
enters the integrity branch. -/
theorem load_eq_dict (hashHex : HashFn) (deser : DeserFn) (bytes : List Nat)
    (es : List (String × PyVal)) (s : IrisModel) :
    load hashHex deser ⟨some bytes, some (some (.dict es))⟩ s =
      loadHashBranch hashHex deser bytes es
        ⟨s.model, some (.dict es), s.classes⟩ (dictGet es "model_hash") :=
  rfl

/-- When loadHashBranch raises, the classes field is left as it was. -/
theorem loadHashBranch_error_classes (hashHex : HashFn) (deser : DeserFn)
    (bytes : List Nat) (es : List (String × PyVal)) (s1 : IrisModel)
    (ov : Option PyVal) (e : PyErr)
    (h : (loadHashBranch hashHex deser bytes es s1 ov).res = .error e) :
    (loadHashBranch hashHex deser bytes es s1 ov).st.classes = s1.classes := by
  cases ov with
  | none => exact loadTail_error_classes deser bytes es s1 [] e h
  | some v =>
    cases v with
    | str a =>
      simp only [loadHashBranch] at h ⊢
      by_cases ht : pyTruthy (.str a) = true
      · rw [if_pos ht] at h ⊢
        cases hcmp : compare_digest a (calculate_file_hash hashHex bytes).1 with
        | error err => simp only [hcmp]
        | ok b =>
          simp only [hcmp] at h ⊢
          cases b with
          | true => exact loadTail_error_classes deser bytes es s1 _ e h
          | false => exact rfl
      · rw [if_neg ht] at h ⊢
        exact loadTail_error_classes deser bytes es s1 [] e h
    | num q =>
      simp only [loadHashBranch] at h ⊢
      by_cases ht : pyTruthy (.num q) = true
      · rw [if_pos ht]
      · rw [if_neg ht] at h ⊢
        exact loadTail_error_classes deser bytes es s1 [] e h
    | bool b =>
      simp only [loadHashBranch] at h ⊢
      by_cases ht : pyTruthy (.bool b) = true
      · rw [if_pos ht]
      · rw [if_neg ht] at h ⊢
        exact loadTail_error_classes deser bytes es s1 [] e h
    | null =>
      simp only [loadHashBranch] at h ⊢
      exact loadTail_error_classes deser bytes es s1 [] e h
    | list xs =>
      simp only [loadHashBranch] at h ⊢
      by_cases ht : pyTruthy (.list xs) = true
      · rw [if_pos ht]
      · rw [if_neg ht] at h ⊢
        exact loadTail_error_classes deser bytes es s1 [] e h
    | dict ds =>
      simp only [loadHashBranch] at h ⊢
      by_cases ht : pyTruthy (.dict ds) = true
      · rw [if_pos ht]
      · rw [if_neg ht] at h ⊢
        exact loadTail_error_classes deser bytes es s1 [] e h

/-- A load() call that raises never assigns self.classes: the assignment
self.classes = self.metadata["classes"] is the last statement of load and
reaching its successful completion is exactly a successful load. -/
theorem load_error_classes_unchanged (hashHex : HashFn) (deser : DeserFn)
    (fs : FS) (s : IrisModel) (e : PyErr)
    (h : (load hashHex deser fs s).res = .error e) :
    (load hashHex deser fs s).st.classes = s.classes := by
  obtain ⟨mf, mdf⟩ := fs
  cases mf with
  | none => rfl
  | some bytes =>
    cases mdf with
    | none => rfl
    | some parsed =>
      cases parsed with
      | none => rfl
      | some md =>
        cases md with
        | str a => rfl
        | num q => rfl
        | bool b => rfl
        | null => rfl
        | list xs => rfl
        | dict es =>
          rw [load_eq_dict] at h ⊢
          exact loadHashBranch_error_classes hashHex deser bytes es _ _ e h

/-- Metadata document of the C1 counterexample: a non-ASCII declared hash. -/
def esC1x : List (String × PyVal) :=
  [("model_hash", .str "café"),
   ("classes", .list [.str "setosa"]),
   ("version", .str "1.0.0")]

/-- Claim C1 counterexample: the metadata declares the non-empty
model_hash "café", which differs from the artifact's computed digest, yet
load fails with the TypeError hmac.compare_digest raises on a non-ASCII
string, not with ModelIntegrityError; deserialization is still never
attempted (the trace is only the digest computation). -/
theorem c1_counterexample :
    dictGet esC1x "model_hash" = some (.str "café") ∧
    "café" ≠ "" ∧
    "café" ≠ toyHash "sha256" [1] ∧
    (load toyHash toyDeser ⟨some [1], some (some (.dict esC1x))⟩
        IrisModel.init).res = .error (.typeError "compare_digest") ∧
    (load toyHash toyDeser ⟨some [1], some (some (.dict esC1x))⟩
        IrisModel.init).ev = [LoadEvent.digest "sha256"] :=
  ⟨rfl, by decide, by decide, rfl, rfl⟩

/-- Claim C1 amended: if the metadata document declares a non-empty ASCII
model_hash string (every hex-encoded digest is ASCII) that differs from
the artifact's computed digest (always the sha256 digest; hexdigest output
is ASCII, the second hypothesis on the abstracted hashlib), load raises
ModelIntegrityError carrying the expected and the actual digest, and the
deserialization step never appears in the event trace: the raise is
strictly before any deserialization.  A truthy non-ASCII model_hash
instead raises compare_digest's TypeError (see the counterexample), also
before any deserialization. -/
theorem c1_integrity_blocks_deserialization
    (hashHex : HashFn) (deser : DeserFn) (s : IrisModel)
    (bytes : List Nat) (es : List (String × PyVal)) (e : String)
    (hh : dictGet es "model_hash" = some (.str e))
    (hne : e ≠ "")
    (hae : asciiString e = true)
    (haa : asciiString (hashHex "sha256" bytes) = true)
    (hdiff : e ≠ hashHex "sha256" bytes) :
    (load hashHex deser ⟨some bytes, some (some (.dict es))⟩ s).res =
      .error (.modelIntegrityError e (hashHex "sha256" bytes)) ∧
    LoadEvent.deserialize ∉
      (load hashHex deser ⟨some bytes, some (some (.dict es))⟩ s).ev := by
  have ht : pyTruthy (.str e) = true := by simp [pyTruthy, hne]
  have hcmp : compare_digest e (calculate_file_hash hashHex bytes).1 =
      .ok false := by
    simp only [calculate_file_hash, compare_digest]
    rw [if_pos (by simp [hae, haa])]
    simp [hdiff]
  rw [load_eq_dict, hh]
  simp only [loadHashBranch]
  rw [if_pos ht]
  simp only [hcmp]
  exact ⟨rfl, by simp [calculate_file_hash]⟩

/-- Metadata document of the C1 witness scenario: a declared hash that does
not match the toyHash sha256 digest of the artifact bytes [1, 2, 3]. -/
def mdC1 : PyVal :=
  .dict [("model_hash", .str "deadbeef"),
         ("classes", .list [.str "setosa"]),
         ("version", .str "1.0.0")]

/-- Witness for the amended C1 at a concrete artifact and metadata
document. -/
theorem c1_witness :
    (load toyHash toyDeser
        ⟨some [1, 2, 3], some (some mdC1)⟩ IrisModel.init).res =
      .error (.modelIntegrityError "deadbeef" (toyHash "sha256" [1, 2, 3])) ∧
    LoadEvent.deserialize ∉
      (load toyHash toyDeser
        ⟨some [1, 2, 3], some (some mdC1)⟩ IrisModel.init).ev :=
  c1_integrity_blocks_deserialization toyHash toyDeser IrisModel.init
    [1, 2, 3]
    [("model_hash", .str "deadbeef"),
     ("classes", .list [.str "setosa"]),
     ("version", .str "1.0.0")]
    "deadbeef" rfl (by decide) (by decide) (by decide) (by decide)

/-- Claim C10: when the metadata document's model_hash entry is falsy (the
empty string, null, or absent), load performs no digest computation and no
comparison and proceeds directly to deserialize the artifact: the event
trace is exactly the deserialization step. -/
theorem c10_falsy_hash_skips_verification
    (hashHex : HashFn) (deser : DeserFn) (s : IrisModel)
    (bytes : List Nat) (es : List (String × PyVal))
    (hfalsy : pyTruthyOpt (dictGet es "model_hash") = false) :
    (load hashHex deser ⟨some bytes, some (some (.dict es))⟩ s).ev =
      [LoadEvent.deserialize] := by
  rw [load_eq_dict]
  cases hmh : dictGet es "model_hash" with
  | none => exact loadTail_ev deser bytes es _ []
  | some v =>
    have ht : pyTruthy v = false := by
      simpa [pyTruthyOpt, hmh] using hfalsy
    cases v with
    | str a =>
      simp only [loadHashBranch]
      rw [if_neg (by simp [ht])]
      exact loadTail_ev deser bytes es _ []
    | num q =>
      simp only [loadHashBranch]
      rw [if_neg (by simp [ht])]
      exact loadTail_ev deser bytes es _ []
    | bool b =>
      simp only [loadHashBranch]
      rw [if_neg (by simp [ht])]
      exact loadTail_ev deser bytes es _ []
    | null =>
      simp only [loadHashBranch]
      exact loadTail_ev deser bytes es _ []
    | list xs =>
      simp only [loadHashBranch]
      rw [if_neg (by simp [ht])]
      exact loadTail_ev deser bytes es _ []
    | dict ds =>
      simp only [loadHashBranch]
      rw [if_neg (by simp [ht])]
      exact loadTail_ev deser bytes es _ []

/-- Metadata document of the C10 witness scenario: model_hash present but
the empty string. -/
def mdC10 : PyVal :=
  .dict [("model_hash", .str ""),
         ("classes", .list [.str "setosa"]),
         ("version", .str "1.0.0")]

/-- Witness for C10: a present-but-empty model_hash triggers the lenient
unverified load, not an integrity failure. -/
theorem c10_witness :
    (load toyHash toyDeser
        ⟨some [1, 2, 3], some (some mdC10)⟩ IrisModel.init).ev =
      [LoadEvent.deserialize] :=
  c10_falsy_hash_skips_verification toyHash toyDeser IrisModel.init
    [1, 2, 3]
    [("model_hash", .str ""),
     ("classes", .list [.str "setosa"]),
     ("version", .str "1.0.0")]
    rfl

/-- The falsy case of the integrity branch: a declared but falsy hash value
falls through to plain deserialization. -/
theorem loadHashBranch_falsy (hashHex : HashFn) (deser : DeserFn)
    (bytes : List Nat) (es : List (String × PyVal)) (s1 : IrisModel)
    (v : PyVal) (ht : pyTruthy v = false) :
    loadHashBranch hashHex deser bytes es s1 (some v) =
      loadTail deser bytes es s1 [] := by
  cases v with
  | str a => simp only [loadHashBranch]; rw [if_neg (by simp [ht])]
  | num q => simp only [loadHashBranch]; rw [if_neg (by simp [ht])]
  | bool b => simp only [loadHashBranch]; rw [if_neg (by simp [ht])]
  | null => rfl
  | list xs => simp only [loadHashBranch]; rw [if_neg (by simp [ht])]
  | dict ds => simp only [loadHashBranch]; rw [if_neg (by simp [ht])]

/-- The absent-key case of the integrity branch. -/
theorem loadHashBranch_none (hashHex : HashFn) (deser : DeserFn)
    (bytes : List Nat) (es : List (String × PyVal)) (s1 : IrisModel) :
    loadHashBranch hashHex deser bytes es s1 none =
      loadTail deser bytes es s1 [] := rfl

/-- When deserialization succeeds and the classes key is present, loadTail
succeeds, stores the classifier and the classes value, and appends the
deserialization event. -/
theorem loadTail_ok (deser : DeserFn) (bytes : List Nat)
    (es : List (String × PyVal)) (s1 : IrisModel) (ev : List LoadEvent)
    (clf : Classifier) (cs : PyVal)
    (hdeser : deser bytes = some clf)
    (hcs : dictGet es "classes" = some cs) :
    loadTail deser bytes es s1 ev =
      ⟨.ok (), ⟨some clf, s1.metadata, some cs⟩,
        ev ++ [LoadEvent.deserialize]⟩ := by
  unfold loadTail
  rw [hdeser, hcs]

/-- Claim C2 amended: when the metadata declares a truthy model_hash, load
computes exactly one digest, and it is computed with the sha256 default of
calculate_file_hash, regardless of any hash_algorithm entry in the
metadata; the metadata's hash_algorithm is never consulted. -/
theorem c2_amended_digest_always_sha256
    (hashHex : HashFn) (deser : DeserFn) (s : IrisModel)
    (bytes : List Nat) (es : List (String × PyVal)) (v : PyVal)
    (hh : dictGet es "model_hash" = some v)
    (ht : pyTruthy v = true) :
    (load hashHex deser ⟨some bytes, some (some (.dict es))⟩ s).ev =
        [LoadEvent.digest "sha256"] ∨
    (load hashHex deser ⟨some bytes, some (some (.dict es))⟩ s).ev =
        [LoadEvent.digest "sha256", LoadEvent.deserialize] := by
  rw [load_eq_dict, hh]
  cases v with
  | str a =>
    simp only [loadHashBranch]
    rw [if_pos ht]
    cases hcmp : compare_digest a (calculate_file_hash hashHex bytes).1 with
    | error err =>
      left
      simp only [hcmp]
      exact rfl
    | ok b =>
      cases b with
      | true =>
        right
        simp only [hcmp]
        rw [loadTail_ev]
        rfl
      | false =>
        left
        simp only [hcmp]
        exact rfl
  | num q =>
    left
    simp only [loadHashBranch]
    rw [if_pos ht]
    exact rfl
  | bool b =>
    left
    simp only [loadHashBranch]
    rw [if_pos ht]
    exact rfl
  | null => exact absurd ht (by decide)
  | list xs =>
    left
    simp only [loadHashBranch]
    rw [if_pos ht]
    exact rfl
  | dict ds =>
    left
    simp only [loadHashBranch]
    rw [if_pos ht]
    exact rfl

/-- Artifact bytes of the C2 counterexample scenario. -/
def bytesC2 : List Nat := [1, 2]

/-- The digest of the artifact under the algorithm the metadata names. -/
def declC2 : String := toyHash "sha512" bytesC2

/-- Metadata of the C2 counterexample: hash_algorithm names sha512 and
model_hash is exactly the artifact's sha512 digest. -/
def esC2 : List (String × PyVal) :=
  [("model_hash", .str declC2),
   ("hash_algorithm", .str "sha512"),
   ("classes", .list [.str "setosa"]),
   ("version", .str "1.0.0")]

/-- Claim C2 counterexample: the metadata names algorithm sha512 and
declares precisely the artifact's sha512 digest, so under the claim the
comparison would use the sha512 digest and the load would pass the
integrity check; instead load fails, reporting as the actual digest the
sha256 one, which is not the declared value.  The digest compared is
therefore not the one produced by the algorithm named in hash_algorithm. -/
theorem c2_counterexample :
    dictGet esC2 "hash_algorithm" = some (.str "sha512") ∧
    toyHash "sha512" bytesC2 = declC2 ∧
    (load toyHash toyDeser ⟨some bytesC2, some (some (.dict esC2))⟩
        IrisModel.init).res =
      .error (.modelIntegrityError declC2 (toyHash "sha256" bytesC2)) ∧
    toyHash "sha256" bytesC2 ≠ declC2 :=
  ⟨rfl, rfl, rfl, by decide⟩

/-- Witness for the amended C2 at a concrete metadata document that even
names a different hash_algorithm. -/
theorem c2_witness :
    (load toyHash toyDeser ⟨some bytesC2, some (some (.dict esC2))⟩
        IrisModel.init).ev = [LoadEvent.digest "sha256"] ∨
    (load toyHash toyDeser ⟨some bytesC2, some (some (.dict esC2))⟩
        IrisModel.init).ev =
      [LoadEvent.digest "sha256", LoadEvent.deserialize] :=
  c2_amended_digest_always_sha256 toyHash toyDeser IrisModel.init
    bytesC2 esC2 (.str declC2) rfl (by decide)

/-- Metadata of the C3 counterexample: a declared hash that cannot match. -/
def esC3 : List (String × PyVal) :=
  [("model_hash", .str "ffff"),
   ("classes", .list [.str "setosa"]),
   ("version", .str "1.0.0")]

/-- Claim C3 counterexample: starting from the freshly constructed service,
a load that fails its integrity check leaves the service with the metadata
field updated to the newly parsed document — the state is not
observationally equivalent to the pre-call state (get_info now returns the
new document), so a failed load does leave a partially updated state. -/
theorem c3_counterexample :
    (load toyHash toyDeser ⟨some [1], some (some (.dict esC3))⟩
        IrisModel.init).res =
      .error (.modelIntegrityError "ffff" (toyHash "sha256" [1])) ∧
    (load toyHash toyDeser ⟨some [1], some (some (.dict esC3))⟩
        IrisModel.init).st.metadata ≠ IrisModel.init.metadata := by
  refine ⟨rfl, ?_⟩
  intro hcontra
  exact Option.noConfusion hcontra

/-- Claim C3 amended: what a failed load does preserve is the classes
field — the assignment self.classes = self.metadata["classes"] is the last
statement of load — while the metadata field (and, on a deserialization
that succeeded before a KeyError, the model field) may be left updated by
the failed call. -/
theorem c3_amended_failed_load_keeps_classes
    (hashHex : HashFn) (deser : DeserFn) (fs : FS) (s : IrisModel)
    (e : PyErr) (h : (load hashHex deser fs s).res = .error e) :
    (load hashHex deser fs s).st.classes = s.classes :=
  load_error_classes_unchanged hashHex deser fs s e h

/-- Witness for the amended C3 at a concrete failing load (missing model
file). -/
theorem c3_witness :
    (load toyHash toyDeser ⟨none, none⟩ IrisModel.init).st.classes =
      IrisModel.init.classes :=
  c3_amended_failed_load_keeps_classes toyHash toyDeser ⟨none, none⟩
    IrisModel.init (.fileNotFound "model") rfl

/-- Metadata of the C4 counterexample: classes present but empty, version
absent, no model_hash. -/
def esC4 : List (String × PyVal) := [("classes", PyVal.list [])]

/-- Claim C4 counterexample: a metadata document whose classes list is
empty and whose version is absent loads successfully — load performs none
of the InvalidMetadata validation the claim describes. -/
theorem c4_counterexample :
    dictGet esC4 "version" = none ∧
    dictGet esC4 "classes" = some (.list []) ∧
    (load toyHash toyDeser ⟨some [1], some (some (.dict esC4))⟩
        IrisModel.init).res = .ok () :=
  ⟨rfl, rfl, rfl⟩

/-- Claim C4 amended: load performs no metadata schema validation.  When
both files exist, the metadata parses to a dict, no truthy model_hash is
declared, deserialization succeeds and a classes key is present, load
succeeds — whatever the classes value is (empty, non-string entries) and
whether or not version is present or a string.  (The only metadata-shape
failures load can produce are an AttributeError when the document is not a
dict and a KeyError — after deserialization — when the classes key is
absent.) -/
theorem c4_amended_no_metadata_validation
    (hashHex : HashFn) (deser : DeserFn) (s : IrisModel)
    (bytes : List Nat) (es : List (String × PyVal)) (cs : PyVal)
    (clf : Classifier)
    (hfalsy : pyTruthyOpt (dictGet es "model_hash") = false)
    (hdeser : deser bytes = some clf)
    (hcs : dictGet es "classes" = some cs) :
    (load hashHex deser ⟨some bytes, some (some (.dict es))⟩ s).res =
      .ok () := by
  rw [load_eq_dict]
  cases hmh : dictGet es "model_hash" with
  | none =>
    rw [loadHashBranch_none, loadTail_ok deser bytes es _ [] clf cs hdeser hcs]
  | some v =>
    have ht : pyTruthy v = false := by simpa [pyTruthyOpt, hmh] using hfalsy
    rw [loadHashBranch_falsy hashHex deser bytes es _ v ht,
      loadTail_ok deser bytes es _ [] clf cs hdeser hcs]

/-- Metadata of the C4 witness: a null model_hash, an empty classes list
and a numeric version. -/
def esW4 : List (String × PyVal) :=
  [("model_hash", PyVal.null),
   ("classes", PyVal.list []),
   ("version", PyVal.num 3)]

/-- Witness for the amended C4 at a concrete metadata document. -/
theorem c4_witness :
    (load toyHash toyDeser ⟨some [1], some (some (.dict esW4))⟩
        IrisModel.init).res = .ok () :=
  c4_amended_no_metadata_validation toyHash toyDeser IrisModel.init
    [1] esW4 (.list []) toyClassifier rfl rfl rfl

/-- Metadata of the C5 counterexample. -/
def esC5 : List (String × PyVal) :=
  [("model_hash", .str "eeee"),
   ("classes", .list [.str "setosa"]),
   ("version", .str "1.0.0")]

/-- Claim C5 counterexample: after a failed load the service can hold a
metadata document while the model is still absent; in that reachable state
is_loaded is false and yet get_info succeeds, returning the document of
the failed load instead of failing with NotLoaded. -/
theorem c5_counterexample :
    (load toyHash toyDeser ⟨some [2], some (some (.dict esC5))⟩
        IrisModel.init).res =
      .error (.modelIntegrityError "eeee" (toyHash "sha256" [2])) ∧
    is_loaded (load toyHash toyDeser ⟨some [2], some (some (.dict esC5))⟩
        IrisModel.init).st = false ∧
    get_info (load toyHash toyDeser ⟨some [2], some (some (.dict esC5))⟩
        IrisModel.init).st = .ok (.dict esC5) :=
  ⟨rfl, rfl, rfl⟩

/-- Claim C5 amended: get_info fails with the NotLoaded RuntimeError
exactly when the metadata field is empty — not exactly when is_loaded is
false, since a failed load can leave metadata populated with the model
still absent. -/
theorem c5_amended_info_iff_metadata (s : IrisModel) :
    (get_info s =
        .error (.runtimeError "Model not loaded. Call load() first.")) ↔
      s.metadata = none := by
  obtain ⟨m, md, cls⟩ := s
  cases md with
  | none => simp [get_info]
  | some d => simp [get_info]

/-- Witness for the amended C5 at the freshly constructed service. -/
theorem c5_witness :
    get_info IrisModel.init =
      .error (.runtimeError "Model not loaded. Call load() first.") :=
  (c5_amended_info_iff_metadata IrisModel.init).mpr rfl

/-- Classifier of the C6 counterexample: an arity-3 model with a single
output class. -/
def clfC6 : Classifier := ⟨fun _ => 0, fun _ => [1]⟩

/-- Feature names of the C6 counterexample metadata: arity 3. -/
def featC6 : List PyVal :=
  [.str "sepal_length", .str "sepal_width", .str "petal_length"]

/-- Metadata of the C6 counterexample. -/
def esC6 : List (String × PyVal) :=
  [("features", .list featC6), ("classes", .list [.str "setosa"])]

/-- A loaded service whose metadata fixes feature arity 3. -/
def sC6 : IrisModel :=
  ⟨some clfC6, some (.dict esC6), some (.list [.str "setosa"])⟩

/-- Claim C6 counterexample: a loaded service whose metadata declares
three feature names receives an input of length 3 — equal to the arity the
metadata fixes — and predict nevertheless fails with the ValueError naming
expected 4: the arity check is hard-coded to 4, not derived from the
metadata or the model. -/
theorem c6_counterexample :
    sC6.metadata = some (.dict esC6) ∧
    dictGet esC6 "features" = some (.list featC6) ∧
    featC6.length = 3 ∧
    (predict sC6 [1, 2, 3]).res = .error (.valueError 4 3) ∧
    (predict sC6 [1, 2, 3]).ev = [] :=
  ⟨rfl, rfl, rfl, rfl, rfl⟩

/-- Claim C6 amended: on a loaded service, predict rejects every features
list whose length is not 4 — the bound is the literal 4 of the source, not
a value derived from metadata or model — with a ValueError naming the
expected count 4 and the actual count, and without invoking the
classifier. -/
theorem c6_amended_arity_hardcoded_four
    (s : IrisModel) (clf : Classifier) (cs : PyVal) (features : List ℚ)
    (hm : s.model = some clf) (hc : s.classes = some cs)
    (hlen : features.length ≠ 4) :
    predict s features = ⟨.error (.valueError 4 features.length), []⟩ := by
  obtain ⟨m, md, cls⟩ := s
  dsimp only at hm hc
  subst hm
  subst hc
  simp only [predict]
  rw [if_pos hlen]

/-- Witness for the amended C6 at a concrete length-3 input. -/
theorem c6_witness :
    predict sC6 [1, 2, 3] = ⟨.error (.valueError 4 3), []⟩ :=
  c6_amended_arity_hardcoded_four sC6 clfC6 (.list [.str "setosa"]) [1, 2, 3]
    rfl rfl (by decide)

/-! Machinery for C7: behaviour of the Python dict built by the
probabilities comprehension. -/

mutual

/-- Python equality is reflexive. -/
theorem PyVal.beq_refl : ∀ a : PyVal, PyVal.beq a a = true
  | .str s => by simp [PyVal.beq]
  | .num q => by simp [PyVal.beq]
  | .bool b => by simp [PyVal.beq]
  | .null => rfl
  | .list xs => by simp [PyVal.beq, PyVal.beqList_refl xs]
  | .dict es => by simp [PyVal.beq, PyVal.beqDict_refl es]

/-- Python list equality is reflexive. -/
theorem PyVal.beqList_refl : ∀ xs : List PyVal, PyVal.beqList xs xs = true
  | [] => rfl
  | x :: xs => by simp [PyVal.beqList, PyVal.beq_refl x, PyVal.beqList_refl xs]

/-- Dict entry equality is reflexive. -/
theorem PyVal.beqDict_refl :
    ∀ es : List (String × PyVal), PyVal.beqDict es es = true
  | [] => rfl
  | (k, v) :: es => by
    simp [PyVal.beqDict, PyVal.beq_refl v, PyVal.beqDict_refl es]

end

/-- States reachable from the freshly constructed service through load()
calls none of which succeeded (load is the only state-mutating operation
of the service; predict, get_info and is_loaded do not write any field). -/
inductive NoSuccessReach (hashHex : HashFn) (deser : DeserFn) :
    IrisModel → Prop where
  | base : NoSuccessReach hashHex deser IrisModel.init
  | step (s : IrisModel) (fs : FS) (e : PyErr) :
      NoSuccessReach hashHex deser s →
      (load hashHex deser fs s).res = .error e →
      NoSuccessReach hashHex deser (load hashHex deser fs s).st

/-- Before any successful load the classes field is still empty. -/
theorem noSuccessReach_classes_none (hashHex : HashFn) (deser : DeserFn)
    (s : IrisModel) (h : NoSuccessReach hashHex deser s) :
    s.classes = none := by
  induction h with
  | base => rfl
  | step s fs e hr herr ih =>
    rw [load_error_classes_unchanged hashHex deser fs s e herr]
    exact ih

/-- Claim C8: on every service state reachable without a completed
successful load, predict fails with a NotLoaded RuntimeError for every
input, returns no result and never invokes a classifier. -/
theorem c8_predict_before_load_fails (hashHex : HashFn) (deser : DeserFn)
    (s : IrisModel) (features : List ℚ)
    (h : NoSuccessReach hashHex deser s) :
    ∃ msg, predict s features = ⟨.error (.runtimeError msg), []⟩ := by
  have hc := noSuccessReach_classes_none hashHex deser s h
  obtain ⟨m, md, cls⟩ := s
  dsimp only at hc
  subst hc
  cases m with
  | none => exact ⟨"Model not loaded. Call load() first.", rfl⟩
  | some clf => exact ⟨"Model classes not loaded. Call load() first.", rfl⟩

/-- Witness for C8 at the freshly constructed service. -/
theorem c8_witness :
    ∃ msg, predict IrisModel.init [1, 2, 3, 4] =
      ⟨.error (.runtimeError msg), []⟩ :=
  c8_predict_before_load_fails toyHash toyDeser IrisModel.init [1, 2, 3, 4]
    NoSuccessReach.base

end IrisSpec
